import Mathlib

/-!
Verification of the auth/RBAC/audit core of the issue-dashboard repository.

The development shallowly embeds the TypeScript source:
* `src/lib/constants.ts` — security constants,
* `src/lib/auth.ts` — token service and password validation,
* `src/models/User.ts` — account lockout state machine and refresh-token set,
* the `POST /api/auth/login` and `POST /api/auth/refresh` route handlers,
* `src/middleware/rbac.ts` — role checks,
* the rate-limit middleware,
* the two `PATCH /api/issues/:id` handlers (the named `route.ts` one and the
  unnamed "update-issue" variant) together with their audit-change tracking.

Conventions: timestamps are epoch milliseconds as `Nat` (`Date.now()`),
JWT claim times are epoch seconds (`Math.floor(ms / 1000)`), cryptographic
primitives (SHA-256, HMAC, `crypto.randomBytes`) are abstracted as explicit
function/value parameters, and fallible handlers return `Except`.
-/

deriving instance DecidableEq for Except

namespace IssueDashboard

/-- Closed role enum from `src/lib/constants.ts` (`ROLES`). -/
inductive Role where
  | USER
  | MANAGER
  | ADMIN
deriving DecidableEq, Repr

/-- JWT payload carried by access tokens (`src/lib/auth.ts`, `JWTPayload`). -/
structure JWTPayload where
  userId : String
  email : String
  role : Role
deriving DecidableEq, Repr

/-! Security constants from `src/lib/constants.ts` (`AUTH`). -/

/-- Maximum consecutive failed login attempts before lockout (`AUTH.MAX_LOGIN_ATTEMPTS`). -/
def MAX_LOGIN_ATTEMPTS : Nat := 5

/-- Lockout duration in milliseconds (`AUTH.LOCKOUT_DURATION_MS`, 15 minutes). -/
def LOCKOUT_DURATION : Nat := 15 * 60 * 1000

/-- Access-token lifetime in seconds (`JWT_EXPIRES_IN = '15m'`). -/
def ACCESS_TOKEN_LIFETIME : Nat := 15 * 60

/-- Refresh-token lifetime in milliseconds (`getRefreshTokenExpiry`, 7 days). -/
def REFRESH_TOKEN_LIFETIME_MS : Nat := 7 * 24 * 60 * 60 * 1000

/-- Integer version of JavaScript `Math.ceil(num / den)` for natural numbers. -/
def jsCeilDiv (num den : Nat) : Nat := (num + den - 1) / den

/-! Error taxonomy.

Modelled from the spec: `src/lib/errors.ts` is not part of the provided
sources (only its callers are).  Section 7 of the spec gives the taxonomy:
AuthenticationError (invalid credential), AuthorizationError (valid identity,
insufficient role/field permission, 403-class), ValidationError, RateLimitError,
and a generic `AppError` carrying `statusCode` and a machine `code`. -/

/-- Modelled from the spec: the error classes of `src/lib/errors.ts` (missing
from the sources), per the spec's §7 error taxonomy. -/
inductive ApiError where
  | authentication (message : String)
  | authorization (message : String)
  | validation (message : String)
  | rateLimit (message : String)
  | app (message : String) (statusCode : Nat) (code : String)
deriving DecidableEq, Repr

/-- Modelled from the spec: HTTP status of each error class (authentication
failures are 401-class, authorization 403-class, rate limiting quota errors). -/
def ApiError.statusCode : ApiError → Nat
  | .authentication _ => 401
  | .authorization _ => 403
  | .validation _ => 400
  | .rateLimit _ => 429
  | .app _ s _ => s

/-- Modelled from the spec: machine code of each error class. -/
def ApiError.code : ApiError → String
  | .authentication _ => "AUTHENTICATION_ERROR"
  | .authorization _ => "AUTHORIZATION_ERROR"
  | .validation _ => "VALIDATION_ERROR"
  | .rateLimit _ => "RATE_LIMIT_ERROR"
  | .app _ _ c => c

/-- Message carried by an error. -/
def ApiError.message : ApiError → String
  | .authentication m => m
  | .authorization m => m
  | .validation m => m
  | .rateLimit m => m
  | .app m _ _ => m

/-! User credential record (`src/models/User.ts`). -/

/-- One stored refresh-token entry: the SHA-256 hash of the opaque token and
its expiry (`refreshTokens` array items of the `User` schema). -/
structure RefreshTokenEntry where
  token : String
  expiresAt : Nat
deriving DecidableEq, Repr

/-- The fields of a `User` document that the auth core reads and writes. -/
structure UserDoc where
  userId : String
  email : String
  role : Role
  isActive : Bool
  loginAttempts : Nat
  lockUntil : Option Nat
  refreshTokens : List RefreshTokenEntry
deriving DecidableEq, Repr

/-- `UserSchema.methods.isLocked`: true iff `lockUntil` is set and still in
the future (`this.lockUntil && this.lockUntil > new Date()`). -/
def isLocked (now : Nat) (u : UserDoc) : Bool :=
  match u.lockUntil with
  | some l => decide (now < l)
  | none => false

/-- `UserSchema.methods.incrementLoginAttempts`.  If the lock has expired
(`this.lockUntil && this.lockUntil < new Date()`) the attempt counter is reset
to 1 and the lock cleared; otherwise the counter is incremented, and the
account is locked for `LOCKOUT_DURATION` when
`this.loginAttempts + 1 >= MAX_LOGIN_ATTEMPTS && !this.isLocked()`. -/
def incrementLoginAttempts (now : Nat) (u : UserDoc) : UserDoc :=
  if (match u.lockUntil with | some l => decide (l < now) | none => false) then
    { u with loginAttempts := 1, lockUntil := none }
  else if u.loginAttempts + 1 ≥ MAX_LOGIN_ATTEMPTS ∧ isLocked now u = false then
    { u with loginAttempts := u.loginAttempts + 1,
             lockUntil := some (now + LOCKOUT_DURATION) }
  else
    { u with loginAttempts := u.loginAttempts + 1 }

/-- `UserSchema.methods.resetLoginAttempts`: sets `loginAttempts` to 0 and
unsets `lockUntil`. -/
def resetLoginAttempts (u : UserDoc) : UserDoc :=
  { u with loginAttempts := 0, lockUntil := none }

/-- Pre-save middleware of the `User` schema: when the `refreshTokens` array
was modified, entries whose `expiresAt` is not in the future are dropped
(`token.expiresAt > now`). -/
def pruneExpiredTokens (now : Nat) (u : UserDoc) : UserDoc :=
  { u with refreshTokens := u.refreshTokens.filter (fun e => decide (now < e.expiresAt)) }

/-- `getRefreshTokenExpiry` from `src/lib/auth.ts`: now plus seven days. -/
def getRefreshTokenExpiry (now : Nat) : Nat := now + REFRESH_TOKEN_LIFETIME_MS

/-! Password strength validation (`validatePasswordStrength` in
`src/lib/auth.ts`).  The JavaScript regular-expression tests `/[A-Z]/`,
`/[a-z]/`, `/[0-9]/` and `/[!@#$%^&*(),.?":{}|<>]/` are embedded as character
searches over the string's characters. -/

/-- The special characters accepted by the password strength check. -/
def specialChars : List Char := "!@#$%^&*(),.?\":\x7b\x7d|<>".data

/-- Result shape of `validatePasswordStrength`. -/
structure PasswordStrengthResult where
  isValid : Bool
  errors : List String
deriving DecidableEq, Repr

/-- `validatePasswordStrength` from `src/lib/auth.ts`: accumulates one error
message per violated requirement and is valid iff no errors accumulated. -/
def validatePasswordStrength (password : String) : PasswordStrengthResult :=
  let errors :=
    (if password.length < 8 then
      ["Password must be at least 8 characters long"] else []) ++
    (if ¬ password.data.any (fun c => 'A' ≤ c ∧ c ≤ 'Z') then
      ["Password must contain at least one uppercase letter"] else []) ++
    (if ¬ password.data.any (fun c => 'a' ≤ c ∧ c ≤ 'z') then
      ["Password must contain at least one lowercase letter"] else []) ++
    (if ¬ password.data.any (fun c => '0' ≤ c ∧ c ≤ '9') then
      ["Password must contain at least one number"] else []) ++
    (if ¬ password.data.any (fun c => c ∈ specialChars) then
      ["Password must contain at least one special character"] else [])
  { isValid := errors.length == 0, errors := errors }

/-! Token service (`src/lib/auth.ts`).

`jsonwebtoken` is embedded shallowly: a signed token is a record of the
payload, the issued-at and expiry claims (epoch seconds), the header
algorithm, and a signature computed by an HMAC abstracted as an explicit
`mac` parameter over the signing secret and the claims.  `jwt.verify`
recomputes the signature, checks the algorithm allow-list `['HS256']`, and
rejects once the clock timestamp `Math.floor(now / 1000)` has reached the
`exp` claim. -/

/-- Abstraction of the HMAC used by `jwt.sign` / `jwt.verify`: secret,
payload, `iat` and `exp` to signature value. -/
def Mac : Type := String → JWTPayload → Nat → Nat → Nat

/-- A decoded JWT as produced by `jwt.sign`. -/
structure SignedToken where
  payload : JWTPayload
  iat : Nat
  exp : Nat
  alg : String
  sig : Nat
deriving DecidableEq, Repr

/-- `generateAccessToken` from `src/lib/auth.ts`: signs the payload with
HS256 and a 15-minute expiry. -/
def generateAccessToken (mac : Mac) (secret : String) (nowMs : Nat)
    (payload : JWTPayload) : SignedToken :=
  { payload := payload
    iat := nowMs / 1000
    exp := nowMs / 1000 + ACCESS_TOKEN_LIFETIME
    alg := "HS256"
    sig := mac secret payload (nowMs / 1000) (nowMs / 1000 + ACCESS_TOKEN_LIFETIME) }

/-- Input domain of `verifyAccessToken`: a presented string either fails to
parse as a JWT at all or decodes to a structured token. -/
inductive TokenInput where
  | malformed
  | token (t : SignedToken)
deriving DecidableEq, Repr

/-- `verifyAccessToken` from `src/lib/auth.ts`: wraps `jwt.verify` with
`algorithms: ['HS256']` in a try/catch and returns `null` on any failure
(malformed input, wrong algorithm, bad signature, or expiry — `jwt.verify`
rejects once `Math.floor(now / 1000) >= exp`). -/
def verifyAccessToken (mac : Mac) (secret : String) (nowMs : Nat) :
    TokenInput → Option JWTPayload
  | .malformed => none
  | .token t =>
    if t.alg = "HS256" ∧ t.sig = mac secret t.payload t.iat t.exp ∧
        nowMs / 1000 < t.exp then
      some t.payload
    else
      none

/-! Refresh endpoint (`POST /api/auth/refresh`).

The SHA-256 digest of `hashRefreshToken` and the fresh random value of
`generateRefreshToken` are abstracted as the explicit parameters `hash` and
`fresh`.  The Mongo query
`{'refreshTokens.token': h, 'refreshTokens.expiresAt': {$gt: now}}` matches a
document when some array entry has the token hash and some (not necessarily
the same) entry is unexpired; the handler is modelled against the single
matching user document. -/

/-- The `POST /api/auth/refresh` handler body, acting on the presented cookie
and the user document the `findOne` query would return.  On success it
returns the new plaintext refresh cookie value together with the saved user
state (rotation: old hash filtered out, fresh hash pushed, expired entries
pruned by the pre-save hook). -/
def refreshPOST (hash : String → String) (fresh : String) (now : Nat)
    (cookie : Option String) (user : UserDoc) :
    Except ApiError (String × UserDoc) :=
  match cookie with
  | none => .error (.authentication "Refresh token not found")
  | some refreshToken =>
    let hashedToken := hash refreshToken
    if user.refreshTokens.any (fun e => e.token == hashedToken) ∧
        user.refreshTokens.any (fun e => decide (now < e.expiresAt)) then
      let rotated :=
        { user with refreshTokens :=
            user.refreshTokens.filter (fun e => e.token ≠ hashedToken) }
      let stored :=
        { rotated with refreshTokens :=
            rotated.refreshTokens ++
              [⟨hash fresh, getRefreshTokenExpiry now⟩] }
      .ok (fresh, pruneExpiredTokens now stored)
    else
      .error (.authentication "Invalid or expired refresh token")

/-! Login endpoint (`POST /api/auth/login`).

The handler below models the path after the rate limiter has permitted the
request, the body has validated, and the user document has been found; the
bcrypt comparison is abstracted as the boolean `passwordOk`. -/

/-- Outcome of a login request: the response and the persisted user state. -/
structure LoginResult where
  response : Except ApiError SignedToken
  user : UserDoc
deriving Repr

/-- Lock message of the login handler, carrying the remaining lock time in
minutes (`Math.ceil((lockUntil - Date.now()) / 60000)`). -/
def lockedMessage (remainingMinutes : Nat) : String :=
  "Account is locked due to multiple failed login attempts. Try again in " ++
    toString remainingMinutes ++ " minutes."

/-- The `POST /api/auth/login` handler body: rejects with a 423
`ACCOUNT_LOCKED` error while `isLocked()` holds (before the password is
checked), then rejects deactivated accounts, then verifies the password —
incrementing the attempt counter on failure — and on success resets the
attempt counter, issues a token pair and stores the hashed refresh token
(the save pruning expired entries). -/
def loginPOST (mac : Mac) (secret : String) (hash : String → String)
    (fresh : String) (now : Nat) (passwordOk : Bool) (u : UserDoc) :
    LoginResult :=
  if isLocked now u then
    { response := .error (.app
        (lockedMessage (jsCeilDiv (u.lockUntil.getD 0 - now) 60000))
        423 "ACCOUNT_LOCKED")
      user := u }
  else if u.isActive = false then
    { response := .error (.authentication "Account is deactivated")
      user := u }
  else if passwordOk = false then
    { response := .error (.authentication "Invalid email or password")
      user := incrementLoginAttempts now u }
  else
    let u1 := resetLoginAttempts u
    let u2 := { u1 with refreshTokens :=
        u1.refreshTokens ++ [⟨hash fresh, getRefreshTokenExpiry now⟩] }
    { response := .ok (generateAccessToken mac secret now
        ⟨u.userId, u.email, u.role⟩)
      user := pruneExpiredTokens now u2 }

/-! RBAC middleware (`src/middleware/rbac.ts`). -/

/-- The observable part of a `NextResponse` produced by `errorResponse` or a
handler: HTTP status and the structured body. -/
structure NextResponse where
  status : Nat
  success : Bool
  code : String
  message : String
deriving DecidableEq, Repr

/-- `errorResponse` from `src/lib/api-response.ts` applied to an `AppError`
subclass: a `{success: false, error: {code, message, statusCode}}` body with
the error's status. -/
def errorResponse (e : ApiError) : NextResponse :=
  { status := e.statusCode
    success := false
    code := e.code
    message := e.message }

/-- `checkRole` from `src/middleware/rbac.ts`: returns the 403
`AuthorizationError` response when the user's role is not in the allow-list,
`null` (permission granted) otherwise. -/
def checkRole (allowedRoles : List Role) (user : JWTPayload) :
    Option NextResponse :=
  if user.role ∈ allowedRoles then
    none
  else
    some (errorResponse
      (.authorization "You do not have permission to access this resource"))

/-- `withRole` from `src/middleware/rbac.ts`: wraps a handler; when
`checkRole` produces an error response it is returned without invoking the
handler, otherwise the handler runs on the unchanged request and context. -/
def withRole {Req Ctx : Type} (allowedRoles : List Role)
    (handler : Req → Ctx × JWTPayload → NextResponse) :
    Req → Ctx × JWTPayload → NextResponse :=
  fun request context =>
    match checkRole allowedRoles context.2 with
    | some roleCheck => roleCheck
    | none => handler request context

/-! Rate limiter (the rate-limit middleware). -/

/-- Rate limit policy (`RateLimitConfig`). -/
structure RateLimitConfig where
  windowMs : Nat
  maxRequests : Nat
deriving DecidableEq, Repr

/-- One entry of the in-memory `rateLimitStore`. -/
structure RateLimitEntry where
  count : Nat
  resetTime : Nat
deriving DecidableEq, Repr

/-- The machine-readable content of a denial response: the
`Retry-After` seconds, and the `X-RateLimit-Limit`, `X-RateLimit-Remaining`
and `X-RateLimit-Reset` headers (the last rendered from the epoch-millisecond
reset time by `Date.toISOString`). -/
structure RateLimitDenial where
  retryAfterSeconds : Nat
  limitHeader : Nat
  remainingHeader : Nat
  resetHeader : Nat
deriving DecidableEq, Repr

/-- One pass of the `rateLimit(config)` middleware for a fixed client key:
lazily creates or resets the window when absent or expired
(`now > resetTime`), increments the count, and denies with
`retryAfter = Math.ceil((resetTime - now) / 1000)` and the rate-limit headers
when the post-increment count exceeds `maxRequests`. -/
def rateLimitStep (config : RateLimitConfig) (now : Nat)
    (entry : Option RateLimitEntry) :
    Option RateLimitDenial × RateLimitEntry :=
  let data : RateLimitEntry :=
    match entry with
    | none => ⟨0, now + config.windowMs⟩
    | some d => if d.resetTime < now then ⟨0, now + config.windowMs⟩ else d
  let data : RateLimitEntry := { data with count := data.count + 1 }
  if config.maxRequests < data.count then
    (some { retryAfterSeconds := jsCeilDiv (data.resetTime - now) 1000
            limitHeader := config.maxRequests
            remainingHeader := 0
            resetHeader := data.resetTime },
     data)
  else
    (none, data)

/-- Sequential requests from one client: each request is timestamped, runs
`rateLimitStep`, and the stored entry is threaded to the next request. -/
def rateLimitRun (config : RateLimitConfig) (entry : Option RateLimitEntry) :
    List Nat → List (Option RateLimitDenial) × Option RateLimitEntry
  | [] => ([], entry)
  | t :: ts =>
    let step := rateLimitStep config t entry
    let rest := rateLimitRun config (some step.2) ts
    (step.1 :: rest.1, rest.2)

/-! Issue documents and the two `PATCH /api/issues/:id` handlers.

The repository contains two variants of this handler: the named
`src/app/api/issues/[id]/route.ts` (with the USER field allow-list check and
generic `UPDATED` audit actions) and an unnamed "update-issue" variant (no
role check, but per-field specific audit actions).  Both are embedded. -/

/-- Issue status enum (`ISSUE_STATUS`). -/
inductive IssueStatus where
  | OPEN
  | IN_PROGRESS
  | RESOLVED
  | CLOSED
deriving DecidableEq, Repr

/-- String value of an issue status. -/
def IssueStatus.str : IssueStatus → String
  | .OPEN => "OPEN"
  | .IN_PROGRESS => "IN_PROGRESS"
  | .RESOLVED => "RESOLVED"
  | .CLOSED => "CLOSED"

/-- Issue priority enum (`ISSUE_PRIORITY`). -/
inductive IssuePriority where
  | LOW
  | MEDIUM
  | HIGH
  | CRITICAL
deriving DecidableEq, Repr

/-- String value of an issue priority. -/
def IssuePriority.str : IssuePriority → String
  | .LOW => "LOW"
  | .MEDIUM => "MEDIUM"
  | .HIGH => "HIGH"
  | .CRITICAL => "CRITICAL"

/-- Issue type enum (`ISSUE_TYPE`). -/
inductive IssueType where
  | BUG
  | FEATURE
  | TASK
  | INCIDENT
deriving DecidableEq, Repr

/-- String value of an issue type. -/
def IssueType.str : IssueType → String
  | .BUG => "BUG"
  | .FEATURE => "FEATURE"
  | .TASK => "TASK"
  | .INCIDENT => "INCIDENT"

/-- The fields of an `Issue` document that the update handlers touch
(`src/models/Issue.ts`). -/
structure Issue where
  title : String
  description : String
  status : IssueStatus
  priority : IssuePriority
  type : IssueType
  tags : List String
  assignedTo : Option String
  resolvedAt : Option Nat
  closedAt : Option Nat
deriving DecidableEq, Repr

/-- Output of `updateIssueSchema.parse`: every field optional; a field is
`some` exactly when the request body supplied it.  `assignedTo` is nullable
(`some none` is an explicit `null`, requesting unassignment). -/
structure UpdateIssueInput where
  title : Option String
  description : Option String
  status : Option IssueStatus
  priority : Option IssuePriority
  type : Option IssueType
  tags : Option (List String)
  assignedTo : Option (Option String)
deriving DecidableEq, Repr

/-- Audit action enum (`AuditAction` in `src/types/index.ts`). -/
inductive AuditAction where
  | CREATED
  | UPDATED
  | DELETED
  | ASSIGNED
  | UNASSIGNED
  | STATUS_CHANGED
  | PRIORITY_CHANGED
  | COMMENTED
  | COMMENT_EDITED
  | COMMENT_DELETED
deriving DecidableEq, Repr

/-- One tracked change, as passed to `AuditLog.logAction` together with the
issue and actor ids: the field name, old/new values (`null` allowed in the
`route.ts` variant's `assignedTo` entries) and the action the entry is logged
under. -/
structure AuditChange where
  field : String
  oldValue : Option String
  newValue : Option String
  action : AuditAction
deriving DecidableEq, Repr

/-- Outcome of a `PATCH /api/issues/:id` request: the response, the persisted
issue document, and the audit entries appended.  An error outcome is thrown
before the document is saved or any audit entry is written, so it carries the
unchanged issue and an empty audit batch. -/
structure PatchOutcome where
  result : Except ApiError Unit
  issue : Issue
  audit : List AuditChange
deriving Repr

/-- `Object.assign(issue, validatedData)` of the unnamed update-issue
variant: every supplied field overwrites the document field. -/
def applyUpdate (issue : Issue) (d : UpdateIssueInput) : Issue :=
  { issue with
    title := d.title.getD issue.title
    description := d.description.getD issue.description
    status := d.status.getD issue.status
    priority := d.priority.getD issue.priority
    type := d.type.getD issue.type
    tags := d.tags.getD issue.tags
    assignedTo := match d.assignedTo with
      | some a => a
      | none => issue.assignedTo }

/-- Pre-save middleware of the `Issue` schema: when the status was modified,
a transition to `RESOLVED` stamps `resolvedAt` (if unset) and a transition to
`CLOSED` stamps `closedAt` (if unset). -/
def issuePreSave (now : Nat) (old updated : Issue) : Issue :=
  if updated.status ≠ old.status then
    let withResolved :=
      if updated.status = IssueStatus.RESOLVED ∧ updated.resolvedAt = none then
        { updated with resolvedAt := some now }
      else updated
    if withResolved.status = IssueStatus.CLOSED ∧ withResolved.closedAt = none then
      { withResolved with closedAt := some now }
    else withResolved
  else updated

/-! Change tracking of the unnamed update-issue variant.  Each field is
diffed in source order; the `title` and `description` guards include the
JavaScript truthiness test (`validatedData.title && ...`), under which the
empty string does not count as supplied. -/

/-- Title diff of the update-issue variant (action `UPDATED`). -/
def titleChangePart006 (issue : Issue) (d : UpdateIssueInput) : List AuditChange :=
  match d.title with
  | some t =>
    if t ≠ "" ∧ t ≠ issue.title then
      [⟨"title", some issue.title, some t, .UPDATED⟩]
    else []
  | none => []

/-- Description diff of the update-issue variant: values are truncated to 100
characters with an ellipsis (action `UPDATED`). -/
def descriptionChangePart006 (issue : Issue) (d : UpdateIssueInput) : List AuditChange :=
  match d.description with
  | some s =>
    if s ≠ "" ∧ s ≠ issue.description then
      [⟨"description", some (issue.description.take 100 ++ "..."),
        some (s.take 100 ++ "..."), .UPDATED⟩]
    else []
  | none => []

/-- Status diff of the update-issue variant (action `STATUS_CHANGED`). -/
def statusChangePart006 (issue : Issue) (d : UpdateIssueInput) : List AuditChange :=
  match d.status with
  | some s =>
    if s ≠ issue.status then
      [⟨"status", some issue.status.str, some s.str, .STATUS_CHANGED⟩]
    else []
  | none => []

/-- Priority diff of the update-issue variant (action `PRIORITY_CHANGED`). -/
def priorityChangePart006 (issue : Issue) (d : UpdateIssueInput) : List AuditChange :=
  match d.priority with
  | some p =>
    if p ≠ issue.priority then
      [⟨"priority", some issue.priority.str, some p.str, .PRIORITY_CHANGED⟩]
    else []
  | none => []

/-- Type diff of the update-issue variant (action `UPDATED`). -/
def typeChangePart006 (issue : Issue) (d : UpdateIssueInput) : List AuditChange :=
  match d.type with
  | some t =>
    if t ≠ issue.type then
      [⟨"type", some issue.type.str, some t.str, .UPDATED⟩]
    else []
  | none => []

/-- Assignment diff of the update-issue variant: when `assignedTo` is in the
validated body and differs from the stored value, a change to `null` is
recorded as `UNASSIGNED`, a change to a user id as `ASSIGNED` after checking
the assignee exists (404 otherwise). -/
def assignedToChangePart006 (users : List String) (issue : Issue)
    (d : UpdateIssueInput) : Except ApiError (List AuditChange) :=
  match d.assignedTo with
  | none => .ok []
  | some newAssignedTo =>
    let oldAssignedTo := issue.assignedTo
    if oldAssignedTo = newAssignedTo then .ok []
    else
      match newAssignedTo with
      | none =>
        .ok [⟨"assignedTo", some (oldAssignedTo.getD "unassigned"),
              some "unassigned", .UNASSIGNED⟩]
      | some id =>
        if users.contains id then
          .ok [⟨"assignedTo", some (oldAssignedTo.getD "unassigned"),
                some id, .ASSIGNED⟩]
        else
          .error (.app "Assigned user not found" 404 "APP_ERROR")

/-- Full change list of the unnamed update-issue variant, in source order;
an assignee lookup failure aborts the whole computation.  Note that `tags` is
never diffed in this variant. -/
def changesPart006 (users : List String) (issue : Issue)
    (d : UpdateIssueInput) : Except ApiError (List AuditChange) :=
  match assignedToChangePart006 users issue d with
  | .error e => .error e
  | .ok assignChanges =>
    .ok (titleChangePart006 issue d ++ descriptionChangePart006 issue d ++
         statusChangePart006 issue d ++ priorityChangePart006 issue d ++
         typeChangePart006 issue d ++ assignChanges)

/-- The unnamed update-issue variant of `PATCH /api/issues/:id` (after
authentication, id validation and issue lookup): tracks changes — possibly
failing on a missing assignee — then applies the whole validated body with
`Object.assign`, saves (running the pre-save hook), and logs every tracked
change.  No role or field permission check is performed. -/
def patchPart006 (users : List String) (now : Nat) (_user : JWTPayload)
    (issue : Issue) (d : UpdateIssueInput) : PatchOutcome :=
  match changesPart006 users issue d with
  | .error e => ⟨.error e, issue, []⟩
  | .ok changes =>
    ⟨.ok (), issuePreSave now issue (applyUpdate issue d), changes⟩

/-! Change tracking of `src/app/api/issues/[id]/route.ts`.  The handler
diffs each supplied field against the document (strict inequality, tags
compared as JSON of the sorted arrays, `assignedTo` compared as
string-or-null), collects the changed fields into `updateFields`, and later
logs every change with the generic `UPDATED` action. -/

/-- Lexicographic character-list comparison modelling the default JavaScript
string comparator used by `Array.prototype.sort`. -/
def charListLe : List Char → List Char → Bool
  | [], _ => true
  | _ :: _, [] => false
  | a :: as, b :: bs =>
    if a < b then true else if b < a then false else charListLe as bs

/-- JavaScript default string ordering. -/
def jsStrLe (a b : String) : Bool := charListLe a.data b.data

/-- Insertion step of the modelled `Array.prototype.sort`. -/
def jsSortInsert (x : String) : List String → List String
  | [] => [x]
  | y :: ys => if jsStrLe x y then x :: y :: ys else y :: jsSortInsert x ys

/-- Modelled `Array.prototype.sort()` on string arrays (sorts by the default
lexicographic comparator; the source sorts copies of `issue.tags` and the
incoming tags in place before comparing their JSON). -/
def jsSort : List String → List String
  | [] => []
  | x :: xs => jsSortInsert x (jsSort xs)

/-- Whether the `route.ts` diff treats a supplied `title` as changed. -/
def titleChangedRoute (issue : Issue) (d : UpdateIssueInput) : Bool :=
  match d.title with
  | some t => t ≠ issue.title
  | none => false

/-- Whether the `route.ts` diff treats a supplied `description` as changed. -/
def descriptionChangedRoute (issue : Issue) (d : UpdateIssueInput) : Bool :=
  match d.description with
  | some s => s ≠ issue.description
  | none => false

/-- Whether the `route.ts` diff treats a supplied `status` as changed. -/
def statusChangedRoute (issue : Issue) (d : UpdateIssueInput) : Bool :=
  match d.status with
  | some s => s ≠ issue.status
  | none => false

/-- Whether the `route.ts` diff treats a supplied `priority` as changed. -/
def priorityChangedRoute (issue : Issue) (d : UpdateIssueInput) : Bool :=
  match d.priority with
  | some p => p ≠ issue.priority
  | none => false

/-- Whether the `route.ts` diff treats a supplied `type` as changed. -/
def typeChangedRoute (issue : Issue) (d : UpdateIssueInput) : Bool :=
  match d.type with
  | some t => t ≠ issue.type
  | none => false

/-- Whether the `route.ts` diff treats supplied `tags` as changed
(`JSON.stringify(oldTags.sort()) !== JSON.stringify(newTags.sort())`). -/
def tagsChangedRoute (issue : Issue) (d : UpdateIssueInput) : Bool :=
  match d.tags with
  | some nt => jsSort issue.tags ≠ jsSort nt
  | none => false

/-- Whether the `route.ts` diff treats a supplied `assignedTo` as changed
(old id-or-null versus new id-or-null). -/
def assignedToChangedRoute (issue : Issue) (d : UpdateIssueInput) : Bool :=
  match d.assignedTo with
  | some na => na ≠ issue.assignedTo
  | none => false

/-- Change list of the `route.ts` handler, in `Object.entries` order (the
validated body's schema key order).  Every entry is later logged with the
generic `UPDATED` action. -/
def changesRoute (issue : Issue) (d : UpdateIssueInput) : List AuditChange :=
  (match d.title with
   | some t => if t ≠ issue.title then
       [⟨"title", some issue.title, some t, .UPDATED⟩] else []
   | none => []) ++
  (match d.description with
   | some s => if s ≠ issue.description then
       [⟨"description", some issue.description, some s, .UPDATED⟩] else []
   | none => []) ++
  (match d.status with
   | some s => if s ≠ issue.status then
       [⟨"status", some issue.status.str, some s.str, .UPDATED⟩] else []
   | none => []) ++
  (match d.priority with
   | some p => if p ≠ issue.priority then
       [⟨"priority", some issue.priority.str, some p.str, .UPDATED⟩] else []
   | none => []) ++
  (match d.type with
   | some t => if t ≠ issue.type then
       [⟨"type", some issue.type.str, some t.str, .UPDATED⟩] else []
   | none => []) ++
  (match d.tags with
   | some nt => if jsSort issue.tags ≠ jsSort nt then
       [⟨"tags", some (", ".intercalate (jsSort issue.tags)),
         some (", ".intercalate (jsSort nt)), .UPDATED⟩] else []
   | none => []) ++
  (match d.assignedTo with
   | some na => if na ≠ issue.assignedTo then
       [⟨"assignedTo", issue.assignedTo, na, .UPDATED⟩] else []
   | none => [])

/-- Application of `updateFields` in `route.ts` (only changed fields are
collected, which coincides with the supplied values for every field except
`tags`, whose arrays are sorted in place by the comparison), followed by the
handler's own `resolvedAt` stamp for transitions into `RESOLVED`. -/
def applyRouteUpdate (now : Nat) (issue : Issue) (d : UpdateIssueInput) : Issue :=
  let statusToResolved :=
    statusChangedRoute issue d = true ∧ d.status = some IssueStatus.RESOLVED ∧
      issue.status ≠ IssueStatus.RESOLVED
  { issue with
    title := if titleChangedRoute issue d then d.title.getD issue.title else issue.title
    description := if descriptionChangedRoute issue d then
        d.description.getD issue.description else issue.description
    status := if statusChangedRoute issue d then d.status.getD issue.status else issue.status
    priority := if priorityChangedRoute issue d then
        d.priority.getD issue.priority else issue.priority
    type := if typeChangedRoute issue d then d.type.getD issue.type else issue.type
    tags := match d.tags with
      | some nt => if tagsChangedRoute issue d then jsSort nt else jsSort issue.tags
      | none => issue.tags
    assignedTo := if assignedToChangedRoute issue d then
        (d.assignedTo.getD issue.assignedTo) else issue.assignedTo
    resolvedAt := if statusToResolved then some now else issue.resolvedAt }

/-- The `Object.keys(validatedData).some((field) => !allowedFields.includes(field))`
test of `route.ts` with `allowedFields = ['status']`: true when any supplied
field is not `status`. -/
def hasRestrictedFields (d : UpdateIssueInput) : Bool :=
  d.title.isSome || d.description.isSome || d.priority.isSome ||
    d.type.isSome || d.tags.isSome || d.assignedTo.isSome

/-- The `PATCH /api/issues/:id` handler of `src/app/api/issues/[id]/route.ts`
(after authentication, id validation and issue lookup): actors who are
neither ADMIN nor MANAGER may only supply `status` (403 otherwise, thrown
before any mutation or audit write); a supplied non-null assignee must exist
(404); then changed fields are tracked, applied and saved, and each change is
logged with the generic `UPDATED` action. -/
def patchRoute (users : List String) (now : Nat) (user : JWTPayload)
    (issue : Issue) (d : UpdateIssueInput) : PatchOutcome :=
  if ¬(user.role = Role.ADMIN ∨ user.role = Role.MANAGER) ∧
      hasRestrictedFields d = true then
    ⟨.error (.app "You do not have permission to edit this issue" 403 "APP_ERROR"),
     issue, []⟩
  else if (match d.assignedTo with
           | some (some id) => !(users.contains id)
           | _ => false) then
    ⟨.error (.app "Assigned user not found" 404 "APP_ERROR"), issue, []⟩
  else
    ⟨.ok (), issuePreSave now issue (applyRouteUpdate now issue d),
     changesRoute issue d⟩

/-- Consecutive failed password checks, each processed by
`incrementLoginAttempts` at its own timestamp. -/
def failedLoginAttempts (ts : List Nat) (u : UserDoc) : UserDoc :=
  ts.foldl (fun v t => incrementLoginAttempts t v) u

/-- The 403 response produced by `checkRole` on denial. -/
def authorizationDeniedResponse : NextResponse :=
  errorResponse
    (.authorization "You do not have permission to access this resource")

/-! Theorems. -/

/-- C3: for every user whose `lockUntil` is set but strictly in the past, a
failed login attempt processed by `incrementLoginAttempts` sets
`loginAttempts` to exactly 1 (not the previous count plus one) and clears
`lockUntil` — the triggering failed attempt still counts as one attempt. -/
theorem expired_lock_resets_attempts (u : UserDoc) (l now : Nat)
    (hl : u.lockUntil = some l) (hpast : l < now) :
    incrementLoginAttempts now u =
      { u with loginAttempts := 1, lockUntil := none } := by
  unfold incrementLoginAttempts
  rw [hl]
  simp [hpast]

/-- Witness for C3: a user locked until 5, with 4 prior attempts, failing
again at time 10 ends with exactly one attempt and no lock. -/
theorem expired_lock_resets_attempts_witness :
    incrementLoginAttempts 10
        ⟨"u1", "a@b.com", Role.USER, true, 4, some 5, []⟩ =
      ⟨"u1", "a@b.com", Role.USER, true, 1, none, []⟩ :=
  expired_lock_resets_attempts ⟨"u1", "a@b.com", Role.USER, true, 4, some 5, []⟩
    5 10 rfl (by decide)

/-- C4: verifying a generated access token before its expiry returns exactly
the signed payload; verifying at or after the expiry second fails with the
`null` sentinel (`jwt.verify` compares `Math.floor(now / 1000)` with `exp`). -/
theorem access_token_round_trip (mac : Mac) (secret : String)
    (issueMs verifyMs : Nat) (p : JWTPayload) :
    (verifyMs / 1000 < issueMs / 1000 + ACCESS_TOKEN_LIFETIME →
      verifyAccessToken mac secret verifyMs
        (.token (generateAccessToken mac secret issueMs p)) = some p) ∧
    (issueMs / 1000 + ACCESS_TOKEN_LIFETIME ≤ verifyMs / 1000 →
      verifyAccessToken mac secret verifyMs
        (.token (generateAccessToken mac secret issueMs p)) = none) := by
  constructor <;> intro h <;>
    simp [verifyAccessToken, generateAccessToken, h, Nat.not_lt.mpr h]

/-- Witness for C4: a token issued at time 0 verifies to its payload at
time 899 999 ms and fails at 900 000 ms. -/
theorem access_token_round_trip_witness :
    verifyAccessToken (fun _ _ _ _ => 0) "secret" 899999
        (.token (generateAccessToken (fun _ _ _ _ => 0) "secret" 0
          ⟨"u1", "a@b.com", Role.USER⟩)) =
      some ⟨"u1", "a@b.com", Role.USER⟩ ∧
    verifyAccessToken (fun _ _ _ _ => 0) "secret" 900000
        (.token (generateAccessToken (fun _ _ _ _ => 0) "secret" 0
          ⟨"u1", "a@b.com", Role.USER⟩)) = none :=
  ⟨(access_token_round_trip (fun _ _ _ _ => 0) "secret" 0 899999
      ⟨"u1", "a@b.com", Role.USER⟩).1 (by decide),
   (access_token_round_trip (fun _ _ _ _ => 0) "secret" 0 900000
      ⟨"u1", "a@b.com", Role.USER⟩).2 (by decide)⟩

/-- C5: `verifyAccessToken` is total over its input domain — every input
yields either a payload or the `null` sentinel — and returns `null` (rather
than raising) on malformed input, on a wrong header algorithm, on a bad
signature, and on an expired token. -/
theorem verifyAccessToken_total (mac : Mac) (secret : String) (nowMs : Nat) :
    (∀ i : TokenInput, verifyAccessToken mac secret nowMs i = none ∨
      ∃ p, verifyAccessToken mac secret nowMs i = some p) ∧
    verifyAccessToken mac secret nowMs .malformed = none ∧
    (∀ t : SignedToken, t.alg ≠ "HS256" →
      verifyAccessToken mac secret nowMs (.token t) = none) ∧
    (∀ t : SignedToken, t.sig ≠ mac secret t.payload t.iat t.exp →
      verifyAccessToken mac secret nowMs (.token t) = none) ∧
    (∀ t : SignedToken, t.exp ≤ nowMs / 1000 →
      verifyAccessToken mac secret nowMs (.token t) = none) := by
  refine ⟨fun i => ?_, rfl, fun t h => ?_, fun t h => ?_, fun t h => ?_⟩
  · cases i with
    | malformed => exact .inl rfl
    | token t =>
      by_cases hc : t.alg = "HS256" ∧ t.sig = mac secret t.payload t.iat t.exp ∧
          nowMs / 1000 < t.exp
      · exact .inr ⟨t.payload, by simp [verifyAccessToken, hc]⟩
      · exact .inl (by simp only [verifyAccessToken, if_neg hc])
  · simp [verifyAccessToken, h]
  · simp [verifyAccessToken, h]
  · simp [verifyAccessToken, Nat.not_lt.mpr h]

/-- Witness for C5: a token whose header claims algorithm `none` is rejected
with the `null` sentinel even though its signature matches. -/
theorem verifyAccessToken_total_witness :
    verifyAccessToken (fun _ _ _ _ => 0) "secret" 0
      (.token ⟨⟨"u1", "a@b.com", Role.USER⟩, 0, 900, "none", 0⟩) = none :=
  (verifyAccessToken_total (fun _ _ _ _ => 0) "secret" 0).2.2.1
    ⟨⟨"u1", "a@b.com", Role.USER⟩, 0, 900, "none", 0⟩ (by decide)

/-- C6: `checkRole(allowedRoles)(user)` permits (returns `null`) iff
`user.role` is a member of `allowedRoles`, and otherwise returns the 403
`AuthorizationError` response; the decision is defined for every role, and a
handler wrapped by `withRole(allowedRoles)` is never invoked on denial — the
403 response is returned instead, while on permit the handler receives the
request and context unchanged. -/
theorem rbac_totality_and_short_circuit {Req Ctx : Type}
    (allowedRoles : List Role) (u : JWTPayload) (request : Req) (ctx : Ctx)
    (handler : Req → Ctx × JWTPayload → NextResponse) :
    (checkRole allowedRoles u = none ↔ u.role ∈ allowedRoles) ∧
    (u.role ∉ allowedRoles →
      checkRole allowedRoles u = some authorizationDeniedResponse ∧
      authorizationDeniedResponse.status = 403) ∧
    (u.role ∉ allowedRoles →
      withRole allowedRoles handler request (ctx, u) =
        authorizationDeniedResponse) ∧
    (u.role ∈ allowedRoles →
      withRole allowedRoles handler request (ctx, u) =
        handler request (ctx, u)) := by
  by_cases hm : u.role ∈ allowedRoles <;>
    simp [checkRole, withRole, authorizationDeniedResponse, hm, errorResponse,
      ApiError.statusCode]

/-- Witness for C6: a USER against a MANAGER/ADMIN allow-list is denied with
the 403 response and a wrapped handler's output is discarded; an ADMIN is
permitted and the handler runs. -/
theorem rbac_totality_and_short_circuit_witness :
    checkRole [Role.MANAGER, Role.ADMIN] ⟨"u1", "a@b.com", Role.USER⟩ =
      some authorizationDeniedResponse ∧
    withRole [Role.MANAGER, Role.ADMIN]
        (fun (_ : Unit) (_ : Unit × JWTPayload) =>
          (⟨200, true, "OK", "ran"⟩ : NextResponse)) () ((), ⟨"u1", "a@b.com", Role.USER⟩) =
      authorizationDeniedResponse ∧
    withRole [Role.MANAGER, Role.ADMIN]
        (fun (_ : Unit) (_ : Unit × JWTPayload) =>
          (⟨200, true, "OK", "ran"⟩ : NextResponse)) () ((), ⟨"a2", "c@d.com", Role.ADMIN⟩) =
      ⟨200, true, "OK", "ran"⟩ :=
  ⟨((rbac_totality_and_short_circuit [Role.MANAGER, Role.ADMIN]
      ⟨"u1", "a@b.com", Role.USER⟩ () ()
      (fun _ _ => ⟨200, true, "OK", "ran"⟩)).2.1 (by decide)).1,
   (rbac_totality_and_short_circuit [Role.MANAGER, Role.ADMIN]
      ⟨"u1", "a@b.com", Role.USER⟩ () ()
      (fun _ _ => ⟨200, true, "OK", "ran"⟩)).2.2.1 (by decide),
   (rbac_totality_and_short_circuit [Role.MANAGER, Role.ADMIN]
      ⟨"a2", "c@d.com", Role.ADMIN⟩ () ()
      (fun _ _ => ⟨200, true, "OK", "ran"⟩)).2.2.2 (by decide)⟩

/-- C10: `validatePasswordStrength(p).isValid` holds iff `p` is at least 8
characters long and contains an uppercase letter, a lowercase letter, a
digit, and a special character; `isValid` holds exactly when the returned
error list is empty, and the error list carries one message per violated
requirement. -/
theorem validatePasswordStrength_characterization (p : String) :
    ((validatePasswordStrength p).isValid = true ↔
      (8 ≤ p.length ∧
       (∃ c ∈ p.data, 'A' ≤ c ∧ c ≤ 'Z') ∧
       (∃ c ∈ p.data, 'a' ≤ c ∧ c ≤ 'z') ∧
       (∃ c ∈ p.data, '0' ≤ c ∧ c ≤ '9') ∧
       (∃ c ∈ p.data, c ∈ specialChars))) ∧
    ((validatePasswordStrength p).isValid = true ↔
      (validatePasswordStrength p).errors = []) ∧
    (validatePasswordStrength p).errors.length =
      ((if 8 ≤ p.length then 0 else 1) +
       (if ∃ c ∈ p.data, 'A' ≤ c ∧ c ≤ 'Z' then 0 else 1) +
       (if ∃ c ∈ p.data, 'a' ≤ c ∧ c ≤ 'z' then 0 else 1) +
       (if ∃ c ∈ p.data, '0' ≤ c ∧ c ≤ '9' then 0 else 1) +
       (if ∃ c ∈ p.data, c ∈ specialChars then 0 else 1)) := by
  have key : ∀ (c : Prop) (_ : Decidable c) (m : String),
      (if c then [m] else []).length = if c then 1 else 0 := by
    intro c inst m
    split <;> rfl
  have flip : ∀ (c : Prop) (_ : Decidable c),
      (if ¬ c then (1 : Nat) else 0) = if c then 0 else 1 := by
    intro c inst
    by_cases h : c <;> simp [h]
  have fliplt : (if p.length < 8 then (1 : Nat) else 0) =
      if 8 ≤ p.length then 0 else 1 := by
    rcases Nat.lt_or_ge p.length 8 with h | h
    · rw [if_pos h, if_neg (by omega)]
    · rw [if_neg (by omega), if_pos h]
  have e2 : ((p.data.any fun c => decide ('A' ≤ c ∧ c ≤ 'Z')) = true) ↔
      (∃ c ∈ p.data, 'A' ≤ c ∧ c ≤ 'Z') := by
    simp only [List.any_eq_true, decide_eq_true_eq]
  have e3 : ((p.data.any fun c => decide ('a' ≤ c ∧ c ≤ 'z')) = true) ↔
      (∃ c ∈ p.data, 'a' ≤ c ∧ c ≤ 'z') := by
    simp only [List.any_eq_true, decide_eq_true_eq]
  have e4 : ((p.data.any fun c => decide ('0' ≤ c ∧ c ≤ '9')) = true) ↔
      (∃ c ∈ p.data, '0' ≤ c ∧ c ≤ '9') := by
    simp only [List.any_eq_true, decide_eq_true_eq]
  have e5 : ((p.data.any fun c => decide (c ∈ specialChars)) = true) ↔
      (∃ c ∈ p.data, c ∈ specialChars) := by
    simp only [List.any_eq_true, decide_eq_true_eq]
  have hlen : (validatePasswordStrength p).errors.length =
      ((if 8 ≤ p.length then 0 else 1) +
       (if ∃ c ∈ p.data, 'A' ≤ c ∧ c ≤ 'Z' then 0 else 1) +
       (if ∃ c ∈ p.data, 'a' ≤ c ∧ c ≤ 'z' then 0 else 1) +
       (if ∃ c ∈ p.data, '0' ≤ c ∧ c ≤ '9' then 0 else 1) +
       (if ∃ c ∈ p.data, c ∈ specialChars then 0 else 1)) := by
    simp only [validatePasswordStrength, List.length_append, key, flip, fliplt,
      e2, e3, e4, e5]
  refine ⟨?_, ?_, hlen⟩
  · have hv : (validatePasswordStrength p).isValid = true ↔
        (validatePasswordStrength p).errors.length = 0 := by
      simp [validatePasswordStrength]
    rw [hv, hlen]
    constructor
    · intro h
      refine ⟨?_, ?_, ?_, ?_, ?_⟩ <;> by_contra hc <;> simp [hc] at h
    · rintro ⟨c1, c2, c3, c4, c5⟩
      simp [c1, c2, c3, c4, c5]
  · have hv : (validatePasswordStrength p).isValid = true ↔
        (validatePasswordStrength p).errors.length = 0 := by
      simp [validatePasswordStrength]
    rw [hv, List.length_eq_zero]

/-- A failed attempt with no lock present and the counter still below the
threshold only increments the counter. -/
theorem increment_below_max (now : Nat) (u : UserDoc) (hl : u.lockUntil = none)
    (hlt : u.loginAttempts + 1 < MAX_LOGIN_ATTEMPTS) :
    incrementLoginAttempts now u =
      { u with loginAttempts := u.loginAttempts + 1 } := by
  unfold incrementLoginAttempts
  rw [hl]
  simp only [decide_eq_true_eq]
  rw [if_neg (by simp), if_neg (by omega)]

/-- A failed attempt with no lock present that reaches the threshold
increments the counter and sets the lock. -/
theorem increment_at_max (now : Nat) (u : UserDoc) (hl : u.lockUntil = none)
    (hge : MAX_LOGIN_ATTEMPTS ≤ u.loginAttempts + 1) :
    incrementLoginAttempts now u =
      { u with loginAttempts := u.loginAttempts + 1,
               lockUntil := some (now + LOCKOUT_DURATION) } := by
  unfold incrementLoginAttempts
  rw [hl]
  rw [if_neg (by simp), if_pos (by constructor; omega; simp [isLocked, hl])]

/-- C2: from a clean state (no attempts, no lock), exactly
`MAX_LOGIN_ATTEMPTS = 5` consecutive failed password checks processed by
`incrementLoginAttempts` leave the account locked with
`lockUntil = now + LOCKOUT_DURATION` (four failures leave no lock); while
`isLocked()` holds, the login endpoint rejects with the 423 `ACCOUNT_LOCKED`
error and an unchanged user state, whatever the password-check outcome (the
password is never consulted). -/
theorem account_lockout_threshold (u : UserDoc)
    (h0 : u.loginAttempts = 0) (hl : u.lockUntil = none)
    (t1 t2 t3 t4 t5 : Nat) :
    (failedLoginAttempts [t1, t2, t3, t4] u).loginAttempts = 4 ∧
    (failedLoginAttempts [t1, t2, t3, t4] u).lockUntil = none ∧
    (failedLoginAttempts [t1, t2, t3, t4, t5] u).loginAttempts = 5 ∧
    (failedLoginAttempts [t1, t2, t3, t4, t5] u).lockUntil =
      some (t5 + LOCKOUT_DURATION) ∧
    (∀ t, t < t5 + LOCKOUT_DURATION →
      isLocked t (failedLoginAttempts [t1, t2, t3, t4, t5] u) = true ∧
      ∀ (mac : Mac) (secret : String) (hash : String → String)
        (fresh : String) (passwordOk : Bool),
        loginPOST mac secret hash fresh t passwordOk
            (failedLoginAttempts [t1, t2, t3, t4, t5] u) =
          ⟨.error (.app
              (lockedMessage (jsCeilDiv (t5 + LOCKOUT_DURATION - t) 60000))
              423 "ACCOUNT_LOCKED"),
            failedLoginAttempts [t1, t2, t3, t4, t5] u⟩) := by
  have s1 : incrementLoginAttempts t1 u = { u with loginAttempts := 1 } := by
    rw [increment_below_max t1 u hl (by rw [h0]; decide), h0]
  have s2 : incrementLoginAttempts t2 { u with loginAttempts := 1 } =
      { u with loginAttempts := 2 } := by
    rw [increment_below_max t2 _ (by simp [hl])
      (by show (1:Nat) + 1 < MAX_LOGIN_ATTEMPTS; decide)]
  have s3 : incrementLoginAttempts t3 { u with loginAttempts := 2 } =
      { u with loginAttempts := 3 } := by
    rw [increment_below_max t3 _ (by simp [hl])
      (by show (2:Nat) + 1 < MAX_LOGIN_ATTEMPTS; decide)]
  have s4 : incrementLoginAttempts t4 { u with loginAttempts := 3 } =
      { u with loginAttempts := 4 } := by
    rw [increment_below_max t4 _ (by simp [hl])
      (by show (3:Nat) + 1 < MAX_LOGIN_ATTEMPTS; decide)]
  have s5 : incrementLoginAttempts t5 { u with loginAttempts := 4 } =
      { u with loginAttempts := 5,
               lockUntil := some (t5 + LOCKOUT_DURATION) } := by
    rw [increment_at_max t5 _ (by simp [hl])
      (by show MAX_LOGIN_ATTEMPTS ≤ (4:Nat) + 1; decide)]
  have h4 : failedLoginAttempts [t1, t2, t3, t4] u =
      { u with loginAttempts := 4 } := by
    simp [failedLoginAttempts, s1, s2, s3, s4]
  have h5 : failedLoginAttempts [t1, t2, t3, t4, t5] u =
      { u with loginAttempts := 5,
               lockUntil := some (t5 + LOCKOUT_DURATION) } := by
    simp [failedLoginAttempts, s1, s2, s3, s4, s5]
  refine ⟨by simp [h4], by simp [h4, hl], by simp [h5], by simp [h5], ?_⟩
  intro t ht
  have hlock : isLocked t (failedLoginAttempts [t1, t2, t3, t4, t5] u) = true := by
    simp [h5, isLocked, ht]
  refine ⟨hlock, ?_⟩
  intro mac secret hash fresh passwordOk
  rw [loginPOST, if_pos (by rw [hlock])]
  rw [h5]
  simp

/-- Witness for C2: five failed attempts at times 1000..1004 lock the user,
and a later correct-password login at time 600003 is rejected with the 423
`ACCOUNT_LOCKED` error. -/
theorem account_lockout_threshold_witness :
    isLocked 600003 (failedLoginAttempts [1000, 1001, 1002, 1003, 1004]
      ⟨"u1", "a@b.com", Role.USER, true, 0, none, []⟩) = true ∧
    loginPOST (fun _ _ _ _ => 0) "s" (fun s => s) "f" 600003 true
        (failedLoginAttempts [1000, 1001, 1002, 1003, 1004]
          ⟨"u1", "a@b.com", Role.USER, true, 0, none, []⟩) =
      ⟨.error (.app
          (lockedMessage (jsCeilDiv (1004 + LOCKOUT_DURATION - 600003) 60000))
          423 "ACCOUNT_LOCKED"),
        failedLoginAttempts [1000, 1001, 1002, 1003, 1004]
          ⟨"u1", "a@b.com", Role.USER, true, 0, none, []⟩⟩ :=
  have h := account_lockout_threshold
    ⟨"u1", "a@b.com", Role.USER, true, 0, none, []⟩ rfl rfl 1000 1001 1002 1003 1004
  have h2 := h.2.2.2.2 600003 (by decide)
  ⟨h2.1, h2.2 (fun _ _ _ _ => 0) "s" (fun s => s) "f" true⟩

/-- C1: refresh-token rotation is single-use — when the hash of token `t` is
stored with an unexpired `expiresAt`, a refresh presenting `t` succeeds,
removes the hash of `t` from the user's set, stores the hash of the freshly
generated token, and any subsequent sequential request presenting `t` against
the resulting state is rejected with an `AuthenticationError` (performing no
rotation, as the error is thrown before any state is written). -/
theorem refresh_token_rotation_single_use
    (hash : String → String) (t fresh fresh2 : String)
    (now now2 : Nat) (user : UserDoc) (exp : Nat)
    (hmem : (⟨hash t, exp⟩ : RefreshTokenEntry) ∈ user.refreshTokens)
    (hexp : now < exp)
    (hfresh : hash fresh ≠ hash t) :
    ∃ u' : UserDoc,
      refreshPOST hash fresh now (some t) user = .ok (fresh, u') ∧
      (∀ e ∈ u'.refreshTokens, e.token ≠ hash t) ∧
      (∃ e ∈ u'.refreshTokens, e.token = hash fresh) ∧
      refreshPOST hash fresh2 now2 (some t) u' =
        .error (.authentication "Invalid or expired refresh token") := by
  have hc1 : user.refreshTokens.any (fun e => e.token == hash t) = true := by
    rw [List.any_eq_true]
    exact ⟨⟨hash t, exp⟩, hmem, by simp⟩
  have hc2 : (user.refreshTokens.any fun e => decide (now < e.expiresAt)) = true := by
    rw [List.any_eq_true]
    exact ⟨⟨hash t, exp⟩, hmem, by simp [hexp]⟩
  have hrun : refreshPOST hash fresh now (some t) user =
      .ok (fresh, pruneExpiredTokens now
        { user with refreshTokens :=
            (user.refreshTokens.filter (fun e => e.token ≠ hash t)) ++
              [⟨hash fresh, getRefreshTokenExpiry now⟩] }) := by
    simp only [refreshPOST]
    rw [if_pos ⟨hc1, hc2⟩]
  set u' : UserDoc := pruneExpiredTokens now
        { user with refreshTokens :=
            (user.refreshTokens.filter (fun e => e.token ≠ hash t)) ++
              [⟨hash fresh, getRefreshTokenExpiry now⟩] } with hu'
  have htok : ∀ e ∈ u'.refreshTokens, e.token ≠ hash t := by
    intro e he
    rw [hu'] at he
    simp only [pruneExpiredTokens, List.mem_filter, List.mem_append,
      List.mem_singleton, decide_eq_true_eq] at he
    rcases he with ⟨hmem2 | heq, _⟩
    · exact hmem2.2
    · rw [heq]
      exact hfresh
  refine ⟨u', hrun, htok, ?_, ?_⟩
  · refine ⟨⟨hash fresh, getRefreshTokenExpiry now⟩, ?_, rfl⟩
    rw [hu']
    simp only [pruneExpiredTokens, List.mem_filter, List.mem_append,
      List.mem_singleton, decide_eq_true_eq]
    refine ⟨Or.inr trivial, ?_⟩
    simp only [getRefreshTokenExpiry, REFRESH_TOKEN_LIFETIME_MS]
    omega
  · simp only [refreshPOST]
    rw [if_neg]
    intro hc
    rcases hc with ⟨ha, _⟩
    rw [List.any_eq_true] at ha
    rcases ha with ⟨e, hemem, hbeq⟩
    exact htok e hemem (by simpa using hbeq)

/-- Witness for C1: with hash function `s ↦ "#" ++ s`, a user storing entry
`("#a", 10)` rotates token `"a"` to `"b"` at time 5, and replaying `"a"` at
time 99 is rejected. -/
theorem refresh_token_rotation_single_use_witness :
    ∃ u' : UserDoc,
      refreshPOST (fun s => "#" ++ s) "b" 5 (some "a")
          ⟨"u1", "a@b.com", Role.USER, true, 0, none, [⟨"#a", 10⟩]⟩ =
        .ok ("b", u') ∧
      (∀ e ∈ u'.refreshTokens, e.token ≠ (fun s => "#" ++ s) "a") ∧
      (∃ e ∈ u'.refreshTokens, e.token = (fun s => "#" ++ s) "b") ∧
      refreshPOST (fun s => "#" ++ s) "c" 99 (some "a") u' =
        .error (.authentication "Invalid or expired refresh token") :=
  refresh_token_rotation_single_use (fun s => "#" ++ s) "a" "b" "c"
    5 99 ⟨"u1", "a@b.com", Role.USER, true, 0, none, [⟨"#a", 10⟩]⟩ 10
    (by decide) (by decide) (by decide)

/-- A step inside a live window (request time at most the reset time) only
increments the stored count. -/
theorem rateLimitStep_state (config : RateLimitConfig) (c R now : Nat)
    (h : now ≤ R) :
    (rateLimitStep config now (some ⟨c, R⟩)).2 = ⟨c + 1, R⟩ := by
  simp only [rateLimitStep]
  rw [if_neg (show ¬ R < now by omega)]
  split <;> rfl

/-- Decision of a step inside a live window: deny with the computed
retry-after and headers exactly when the incremented count exceeds the
limit. -/
theorem rateLimitStep_decision (config : RateLimitConfig) (c R now : Nat)
    (h : now ≤ R) :
    (rateLimitStep config now (some ⟨c, R⟩)).1 =
      if config.maxRequests < c + 1 then
        some ⟨jsCeilDiv (R - now) 1000, config.maxRequests, 0, R⟩
      else none := by
  simp only [rateLimitStep]
  rw [if_neg (show ¬ R < now by omega)]
  split <;> simp_all

/-- State invariant of a run inside one window: each request adds one to
the count and the reset time never moves. -/
theorem rateLimitRun_state (config : RateLimitConfig) (ts : List Nat) :
    ∀ (c R : Nat), (∀ t ∈ ts, t ≤ R) →
    (rateLimitRun config (some ⟨c, R⟩) ts).2 = some ⟨c + ts.length, R⟩ := by
  induction ts with
  | nil => intro c R _; simp [rateLimitRun]
  | cons t ts ih =>
    intro c R h
    unfold rateLimitRun
    simp only
    rw [rateLimitStep_state config c R t (h t (by simp))]
    rw [ih (c + 1) R (fun x hx => h x (by simp [hx]))]
    simp only [List.length_cons]
    congr 2
    omega

/-- Decision characterisation of a run inside one window, indexed by
request position. -/
theorem rateLimitRun_decisions (config : RateLimitConfig) (ts : List Nat) :
    ∀ (c R : Nat) (i : Nat), (∀ t ∈ ts, t ≤ R) →
    (rateLimitRun config (some ⟨c, R⟩) ts).1.get? i =
      (ts.get? i).map (fun t =>
        if config.maxRequests < c + i + 1 then
          some ⟨jsCeilDiv (R - t) 1000, config.maxRequests, 0, R⟩
        else none) := by
  induction ts with
  | nil => intro c R i _; simp [rateLimitRun]
  | cons t ts ih =>
    intro c R i h
    unfold rateLimitRun
    simp only
    cases i with
    | zero =>
      simp only [List.get?]
      rw [rateLimitStep_decision config c R t (h t (by simp))]
      simp
    | succ j =>
      simp only [List.get?]
      rw [rateLimitStep_state config c R t (h t (by simp))]
      rw [ih (c + 1) R j (fun x hx => h x (by simp [hx]))]
      congr 2
      funext x
      congr 2
      omega

/-- The first request from a client lazily creates the window. -/
theorem rateLimitStep_none (config : RateLimitConfig) (now : Nat) :
    rateLimitStep config now none =
      ((if config.maxRequests < 0 + 1 then
          some ⟨jsCeilDiv (now + config.windowMs - now) 1000,
            config.maxRequests, 0, now + config.windowMs⟩
        else none),
       ⟨1, now + config.windowMs⟩) := by
  simp only [rateLimitStep]
  split <;> simp_all

/-- C9 (amended): for a client's request sequence starting a fresh window,
the first `maxRequests` requests are permitted and every later request in the
same window is denied carrying
`retryAfterSeconds = ceil((resetTime - now) / 1000)` together with the
`Retry-After`, `X-RateLimit-Limit`, `X-RateLimit-Remaining = 0` and
`X-RateLimit-Reset` header values, with `retryAfterSeconds > 0` whenever the
denied request arrives strictly before `resetTime` (at the boundary
`now = resetTime` the value is 0); once `now` exceeds `resetTime` the counter
resets and the next request is permitted again.  The ISO-8601 rendering of
`X-RateLimit-Reset` by `Date.toISOString` is outside the embedding; the
header is modelled by the epoch-millisecond reset time it renders. -/
theorem rate_limit_window_semantics (config : RateLimitConfig) (t1 : Nat)
    (ts : List Nat) (hts : ∀ t ∈ ts, t ≤ t1 + config.windowMs) :
    (∀ i d, ((rateLimitRun config none (t1 :: ts)).1.get? i = some d) →
      (d = none ↔ i < config.maxRequests)) ∧
    (∀ i t d, (t1 :: ts).get? i = some t →
      (rateLimitRun config none (t1 :: ts)).1.get? i = some (some d) →
      d.retryAfterSeconds = jsCeilDiv (t1 + config.windowMs - t) 1000 ∧
      d.limitHeader = config.maxRequests ∧
      d.remainingHeader = 0 ∧
      d.resetHeader = t1 + config.windowMs ∧
      (t < t1 + config.windowMs → 0 < d.retryAfterSeconds)) ∧
    (rateLimitRun config none (t1 :: ts)).2 =
      some ⟨(t1 :: ts).length, t1 + config.windowMs⟩ ∧
    (∀ now entry, entry.resetTime < now → 1 ≤ config.maxRequests →
      rateLimitStep config now (some entry) =
        (none, ⟨1, now + config.windowMs⟩)) := by
  have hdec : ∀ i, (rateLimitRun config none (t1 :: ts)).1.get? i =
      ((t1 :: ts).get? i).map (fun t =>
        if config.maxRequests < i + 1 then
          some ⟨jsCeilDiv (t1 + config.windowMs - t) 1000,
            config.maxRequests, 0, t1 + config.windowMs⟩
        else none) := by
    intro i
    show (rateLimitRun config none (t1 :: ts)).1.get? i = _
    unfold rateLimitRun
    simp only
    rw [rateLimitStep_none]
    cases i with
    | zero => simp
    | succ j =>
      simp only [List.get?]
      rw [rateLimitRun_decisions config ts 1 (t1 + config.windowMs) j hts]
      congr 2
      funext x
      congr 2
      omega
  refine ⟨?_, ?_, ?_, ?_⟩
  · intro i d hd
    rw [hdec i] at hd
    cases ht : (t1 :: ts).get? i with
    | none => rw [ht] at hd; simp at hd
    | some t =>
      rw [ht] at hd
      simp only [Option.map_some', Option.some.injEq] at hd
      subst hd
      split <;> rename_i hc
      · exact ⟨fun h => by simp at h, fun h => absurd hc (by omega)⟩
      · exact ⟨fun _ => by omega, fun _ => rfl⟩
  · intro i t d ht hd
    rw [hdec i, ht] at hd
    simp only [Option.map_some', Option.some.injEq] at hd
    split at hd <;> rename_i hc
    · have hdd : d = ⟨jsCeilDiv (t1 + config.windowMs - t) 1000,
          config.maxRequests, 0, t1 + config.windowMs⟩ := by
        exact Option.some.inj hd.symm
      subst hdd
      refine ⟨rfl, rfl, rfl, rfl, ?_⟩
      intro hlt
      show 0 < jsCeilDiv (t1 + config.windowMs - t) 1000
      unfold jsCeilDiv
      have h1000 : (1 : Nat) * 1000 ≤ t1 + config.windowMs - t + 1000 - 1 := by omega
      exact Nat.lt_of_lt_of_le Nat.zero_lt_one
        ((Nat.le_div_iff_mul_le (by norm_num)).mpr h1000)
    · simp at hd
  · show (rateLimitRun config none (t1 :: ts)).2 = _
    unfold rateLimitRun
    simp only
    rw [rateLimitStep_none]
    rw [rateLimitRun_state config ts 1 (t1 + config.windowMs) hts]
    simp only [List.length_cons]
    congr 2
    omega
  · intro now entry hreset hmax
    simp only [rateLimitStep]
    rw [if_pos hreset]
    rw [if_neg (by simp; omega)]

/-- Counterexample to C9 as stated: with a 1000 ms window and limit 1, a
second request arriving exactly at `resetTime` (time 1000) is denied, yet its
`retryAfterSeconds = ceil((1000 - 1000) / 1000) = 0`, refuting the claimed
`retryAfterSeconds > 0` for every denial in the window. -/
theorem rate_limit_boundary_retry_after_zero :
    ¬ ∀ d : RateLimitDenial,
        (rateLimitRun ⟨1000, 1⟩ none [0, 1000]).1.get? 1 = some (some d) →
        0 < d.retryAfterSeconds :=
  fun h => absurd (h ⟨0, 1, 0, 1000⟩ (by decide)) (by decide)

/-- Witness for C9 (amended): limit 2, window 1000 ms, requests at times
0, 10, 20 — the third request is denied with retry-after
`ceil((1000 - 20) / 1000) = 1 > 0` and the documented headers. -/
theorem rate_limit_window_semantics_witness :
    (⟨1, 2, 0, 1000⟩ : RateLimitDenial).retryAfterSeconds =
      jsCeilDiv (0 + 1000 - 20) 1000 ∧
    (⟨1, 2, 0, 1000⟩ : RateLimitDenial).limitHeader = 2 ∧
    (⟨1, 2, 0, 1000⟩ : RateLimitDenial).remainingHeader = 0 ∧
    (⟨1, 2, 0, 1000⟩ : RateLimitDenial).resetHeader = 0 + 1000 ∧
    (20 < 0 + 1000 →
      0 < (⟨1, 2, 0, 1000⟩ : RateLimitDenial).retryAfterSeconds) :=
  (rate_limit_window_semantics ⟨1000, 2⟩ 0 [10, 20] (by decide)).2.1 2 20
    ⟨1, 2, 0, 1000⟩ (by decide) (by decide)

/-- C7 (amended, scoped to `src/app/api/issues/[id]/route.ts`): a PATCH by
an authenticated USER whose validated body supplies any field other than
`status` is rejected whole with the 403 permission error, the issue document
is unchanged and no audit entry is written.  (The unnamed update-issue
variant performs no such check — see the counterexample.) -/
theorem user_restricted_fields_rejected (users : List String) (now : Nat)
    (user : JWTPayload) (issue : Issue) (d : UpdateIssueInput)
    (hrole : user.role = Role.USER)
    (hfield : d.title.isSome ∨ d.description.isSome ∨ d.priority.isSome ∨
      d.type.isSome ∨ d.tags.isSome ∨ d.assignedTo.isSome) :
    patchRoute users now user issue d =
      ⟨.error (.app "You do not have permission to edit this issue" 403
        "APP_ERROR"), issue, []⟩ := by
  unfold patchRoute
  rw [if_pos]
  constructor
  · intro hc
    rcases hc with h | h <;> rw [hrole] at h <;> cases h
  · unfold hasRestrictedFields
    rcases hfield with h | h | h | h | h | h <;> simp [h]

/-- Witness for C7 (amended): a USER supplying `title` is rejected with the
403 error, the unchanged issue and an empty audit batch. -/
theorem user_restricted_fields_rejected_witness :
    patchRoute [] 0 ⟨"u1", "a@b.com", Role.USER⟩
        ⟨"Old title", "A description.", .OPEN, .LOW, .BUG, [], none, none, none⟩
        ⟨some "A new title", none, none, none, none, none, none⟩ =
      ⟨.error (.app "You do not have permission to edit this issue" 403
        "APP_ERROR"),
       ⟨"Old title", "A description.", .OPEN, .LOW, .BUG, [], none, none, none⟩,
       []⟩ :=
  user_restricted_fields_rejected [] 0 ⟨"u1", "a@b.com", Role.USER⟩
    ⟨"Old title", "A description.", .OPEN, .LOW, .BUG, [], none, none, none⟩
    ⟨some "A new title", none, none, none, none, none, none⟩
    rfl (Or.inl (by decide))

/-- Counterexample to C7 as stated: the unnamed update-issue PATCH variant
(also serving `PATCH /api/issues/:id`) performs no role or field permission
check — a plain USER supplying `title` succeeds: the result is `ok`, the
document's title is overwritten, and an `UPDATED` audit entry is written. -/
theorem user_title_update_not_rejected :
    (patchPart006 [] 0 ⟨"u1", "a@b.com", Role.USER⟩
        ⟨"Old title", "A description.", .OPEN, .LOW, .BUG, [], none, none, none⟩
        ⟨some "A new title", none, none, none, none, none, none⟩).result =
      .ok () ∧
    (patchPart006 [] 0 ⟨"u1", "a@b.com", Role.USER⟩
        ⟨"Old title", "A description.", .OPEN, .LOW, .BUG, [], none, none, none⟩
        ⟨some "A new title", none, none, none, none, none, none⟩).issue.title =
      "A new title" ∧
    (patchPart006 [] 0 ⟨"u1", "a@b.com", Role.USER⟩
        ⟨"Old title", "A description.", .OPEN, .LOW, .BUG, [], none, none, none⟩
        ⟨some "A new title", none, none, none, none, none, none⟩).audit =
      [⟨"title", some "Old title", some "A new title", .UPDATED⟩] := by
  refine ⟨by decide, by decide, by decide⟩

/-- Title entries produced by the update-issue variant, counted. -/
theorem titleChange_filter_title (issue : Issue) (d : UpdateIssueInput)
    (ht : d.title ≠ some "") :
    ((titleChangePart006 issue d).filter
        (fun e => e.field = "title")).length =
      if d.title = none ∨ d.title = some issue.title then 0 else 1 := by
  cases hdt : d.title with
  | none => simp [titleChangePart006, hdt]
  | some t =>
    simp only [titleChangePart006, hdt]
    by_cases h1 : t = issue.title
    · subst h1
      simp
    · have h0 : t ≠ "" := fun he => ht (by rw [hdt, he])
      rw [if_pos ⟨h0, h1⟩]
      simp [h1]

/-- The title diff never produces entries for another field. -/
theorem titleChange_filter_other (issue : Issue) (d : UpdateIssueInput)
    (f : String) (hf : ¬ ("title" : String) = f) :
    (titleChangePart006 issue d).filter (fun e => e.field = f) = [] := by
  cases hdt : d.title with
  | none => simp [titleChangePart006, hdt]
  | some t =>
    simp only [titleChangePart006, hdt]
    split <;> simp [hf]

/-- Every title entry is tagged `UPDATED`. -/
theorem titleChange_mem (issue : Issue) (d : UpdateIssueInput) :
    ∀ e ∈ titleChangePart006 issue d,
      e.field = "title" ∧ e.action = .UPDATED := by
  intro e he
  cases hdt : d.title with
  | none => simp [titleChangePart006, hdt] at he
  | some t =>
    simp only [titleChangePart006, hdt] at he
    by_cases hc : t ≠ "" ∧ t ≠ issue.title
    · rw [if_pos hc] at he
      rcases List.mem_singleton.mp he with rfl
      exact ⟨rfl, rfl⟩
    · rw [if_neg hc] at he
      cases he

/-- Description entries produced by the update-issue variant, counted. -/
theorem descriptionChange_filter_description (issue : Issue)
    (d : UpdateIssueInput) (hs : d.description ≠ some "") :
    ((descriptionChangePart006 issue d).filter
        (fun e => e.field = "description")).length =
      if d.description = none ∨ d.description = some issue.description
      then 0 else 1 := by
  cases hds : d.description with
  | none => simp [descriptionChangePart006, hds]
  | some s =>
    simp only [descriptionChangePart006, hds]
    by_cases h1 : s = issue.description
    · subst h1
      simp
    · have h0 : s ≠ "" := fun he => hs (by rw [hds, he])
      rw [if_pos ⟨h0, h1⟩]
      simp [h1]

/-- The description diff never produces entries for another field. -/
theorem descriptionChange_filter_other (issue : Issue) (d : UpdateIssueInput)
    (f : String) (hf : ¬ ("description" : String) = f) :
    (descriptionChangePart006 issue d).filter (fun e => e.field = f) = [] := by
  cases hds : d.description with
  | none => simp [descriptionChangePart006, hds]
  | some s =>
    simp only [descriptionChangePart006, hds]
    split <;> simp [hf]

/-- Every description entry is tagged `UPDATED`. -/
theorem descriptionChange_mem (issue : Issue) (d : UpdateIssueInput) :
    ∀ e ∈ descriptionChangePart006 issue d,
      e.field = "description" ∧ e.action = .UPDATED := by
  intro e he
  cases hds : d.description with
  | none => simp [descriptionChangePart006, hds] at he
  | some s =>
    simp only [descriptionChangePart006, hds] at he
    by_cases hc : s ≠ "" ∧ s ≠ issue.description
    · rw [if_pos hc] at he
      rcases List.mem_singleton.mp he with rfl
      exact ⟨rfl, rfl⟩
    · rw [if_neg hc] at he
      cases he

/-- Status entries produced by the update-issue variant, counted. -/
theorem statusChange_filter_status (issue : Issue) (d : UpdateIssueInput) :
    ((statusChangePart006 issue d).filter
        (fun e => e.field = "status")).length =
      if d.status = none ∨ d.status = some issue.status then 0 else 1 := by
  cases hds : d.status with
  | none => simp [statusChangePart006, hds]
  | some s =>
    simp only [statusChangePart006, hds]
    by_cases h1 : s = issue.status
    · subst h1
      simp
    · rw [if_pos h1]
      simp [h1]

/-- The status diff never produces entries for another field. -/
theorem statusChange_filter_other (issue : Issue) (d : UpdateIssueInput)
    (f : String) (hf : ¬ ("status" : String) = f) :
    (statusChangePart006 issue d).filter (fun e => e.field = f) = [] := by
  cases hds : d.status with
  | none => simp [statusChangePart006, hds]
  | some s =>
    simp only [statusChangePart006, hds]
    split <;> simp [hf]

/-- Every status entry is tagged `STATUS_CHANGED`. -/
theorem statusChange_mem (issue : Issue) (d : UpdateIssueInput) :
    ∀ e ∈ statusChangePart006 issue d,
      e.field = "status" ∧ e.action = .STATUS_CHANGED := by
  intro e he
  cases hds : d.status with
  | none => simp [statusChangePart006, hds] at he
  | some s =>
    simp only [statusChangePart006, hds] at he
    by_cases hc : s ≠ issue.status
    · rw [if_pos hc] at he
      rcases List.mem_singleton.mp he with rfl
      exact ⟨rfl, rfl⟩
    · rw [if_neg hc] at he
      cases he

/-- Priority entries produced by the update-issue variant, counted. -/
theorem priorityChange_filter_priority (issue : Issue) (d : UpdateIssueInput) :
    ((priorityChangePart006 issue d).filter
        (fun e => e.field = "priority")).length =
      if d.priority = none ∨ d.priority = some issue.priority then 0 else 1 := by
  cases hdp : d.priority with
  | none => simp [priorityChangePart006, hdp]
  | some p =>
    simp only [priorityChangePart006, hdp]
    by_cases h1 : p = issue.priority
    · subst h1
      simp
    · rw [if_pos h1]
      simp [h1]

/-- The priority diff never produces entries for another field. -/
theorem priorityChange_filter_other (issue : Issue) (d : UpdateIssueInput)
    (f : String) (hf : ¬ ("priority" : String) = f) :
    (priorityChangePart006 issue d).filter (fun e => e.field = f) = [] := by
  cases hdp : d.priority with
  | none => simp [priorityChangePart006, hdp]
  | some p =>
    simp only [priorityChangePart006, hdp]
    split <;> simp [hf]

/-- Every priority entry is tagged `PRIORITY_CHANGED`. -/
theorem priorityChange_mem (issue : Issue) (d : UpdateIssueInput) :
    ∀ e ∈ priorityChangePart006 issue d,
      e.field = "priority" ∧ e.action = .PRIORITY_CHANGED := by
  intro e he
  cases hdp : d.priority with
  | none => simp [priorityChangePart006, hdp] at he
  | some p =>
    simp only [priorityChangePart006, hdp] at he
    by_cases hc : p ≠ issue.priority
    · rw [if_pos hc] at he
      rcases List.mem_singleton.mp he with rfl
      exact ⟨rfl, rfl⟩
    · rw [if_neg hc] at he
      cases he

/-- Type entries produced by the update-issue variant, counted. -/
theorem typeChange_filter_type (issue : Issue) (d : UpdateIssueInput) :
    ((typeChangePart006 issue d).filter
        (fun e => e.field = "type")).length =
      if d.type = none ∨ d.type = some issue.type then 0 else 1 := by
  cases hdt : d.type with
  | none => simp [typeChangePart006, hdt]
  | some t =>
    simp only [typeChangePart006, hdt]
    by_cases h1 : t = issue.type
    · subst h1
      simp
    · rw [if_pos h1]
      simp [h1]

/-- The type diff never produces entries for another field. -/
theorem typeChange_filter_other (issue : Issue) (d : UpdateIssueInput)
    (f : String) (hf : ¬ ("type" : String) = f) :
    (typeChangePart006 issue d).filter (fun e => e.field = f) = [] := by
  cases hdt : d.type with
  | none => simp [typeChangePart006, hdt]
  | some t =>
    simp only [typeChangePart006, hdt]
    split <;> simp [hf]

/-- Every type entry is tagged `UPDATED`. -/
theorem typeChange_mem (issue : Issue) (d : UpdateIssueInput) :
    ∀ e ∈ typeChangePart006 issue d,
      e.field = "type" ∧ e.action = .UPDATED := by
  intro e he
  cases hdt : d.type with
  | none => simp [typeChangePart006, hdt] at he
  | some t =>
    simp only [typeChangePart006, hdt] at he
    by_cases hc : t ≠ issue.type
    · rw [if_pos hc] at he
      rcases List.mem_singleton.mp he with rfl
      exact ⟨rfl, rfl⟩
    · rw [if_neg hc] at he
      cases he

/-- Assignment entries of the update-issue variant: at most one, present
exactly when `assignedTo` is supplied and differs, tagged `UNASSIGNED` for a
`null` assignee and `ASSIGNED` for a new assignee. -/
theorem assignedToChange_spec (users : List String) (issue : Issue)
    (d : UpdateIssueInput) (ca : List AuditChange)
    (hass : assignedToChangePart006 users issue d = .ok ca) :
    ((ca.filter (fun e => e.field = "assignedTo")).length =
      if d.assignedTo = none ∨ d.assignedTo = some issue.assignedTo
      then 0 else 1) ∧
    (∀ f : String, ¬ ("assignedTo" : String) = f →
      ca.filter (fun e => e.field = f) = []) ∧
    (∀ e ∈ ca, e.field = "assignedTo" ∧
      (d.assignedTo = some none → e.action = .UNASSIGNED) ∧
      (∀ id, d.assignedTo = some (some id) → e.action = .ASSIGNED)) := by
  cases hda : d.assignedTo with
  | none =>
    simp only [assignedToChangePart006, hda] at hass
    obtain rfl := (Except.ok.inj hass).symm
    simp
  | some na =>
    cases na with
    | none =>
      simp only [assignedToChangePart006, hda] at hass
      by_cases heq : issue.assignedTo = none
      · rw [if_pos heq] at hass
        obtain rfl := (Except.ok.inj hass).symm
        simp [heq]
      · rw [if_neg heq] at hass
        obtain rfl := (Except.ok.inj hass).symm
        refine ⟨?_, ?_, ?_⟩
        · rw [if_neg (by simp; intro h; exact heq h.symm)]
          simp
        · intro f hf
          simp [hf]
        · intro e he
          rcases List.mem_singleton.mp he with rfl
          exact ⟨rfl, fun _ => rfl, fun id h => by simp at h⟩
    | some id =>
      simp only [assignedToChangePart006, hda] at hass
      by_cases heq : issue.assignedTo = some id
      · rw [if_pos heq] at hass
        obtain rfl := (Except.ok.inj hass).symm
        simp [heq]
      · rw [if_neg heq] at hass
        by_cases hu : users.contains id
        · rw [if_pos hu] at hass
          obtain rfl := (Except.ok.inj hass).symm
          refine ⟨?_, ?_, ?_⟩
          · rw [if_neg (by simp; intro h; exact heq h.symm)]
            simp
          · intro f hf
            simp [hf]
          · intro e he
            rcases List.mem_singleton.mp he with rfl
            exact ⟨rfl, fun h => by simp at h, fun i h => rfl⟩
        · rw [if_neg hu] at hass
          cases hass

/-- C8 (amended, scoped to the unnamed update-issue variant): on a
successful update, each changed field among title, description, status,
priority, type and assignedTo produces exactly one audit entry and unchanged
or unsupplied fields produce none; status entries are tagged
`STATUS_CHANGED`, priority entries `PRIORITY_CHANGED`, assignment entries
`UNASSIGNED` (to no assignee) or `ASSIGNED` (to a new assignee), and the
remaining fields generic `UPDATED`.  A changed `tags` field produces no
entry at all in this variant, and in the `route.ts` variant every change is
logged as generic `UPDATED` (see the counterexample); the truthiness guards
of the source make empty-string title/description updates undetectable, which
the validation schema rules out (hypotheses `htitle`, `hdesc`). -/
theorem audit_action_specificity (users : List String) (now : Nat)
    (actor : JWTPayload) (issue : Issue) (d : UpdateIssueInput)
    (htitle : d.title ≠ some "")
    (hdesc : d.description ≠ some "")
    (hok : (patchPart006 users now actor issue d).result = .ok ()) :
    (((patchPart006 users now actor issue d).audit.filter
        (fun e => e.field = "title")).length =
      if d.title = none ∨ d.title = some issue.title then 0 else 1) ∧
    (((patchPart006 users now actor issue d).audit.filter
        (fun e => e.field = "description")).length =
      if d.description = none ∨ d.description = some issue.description
      then 0 else 1) ∧
    (((patchPart006 users now actor issue d).audit.filter
        (fun e => e.field = "status")).length =
      if d.status = none ∨ d.status = some issue.status then 0 else 1) ∧
    (((patchPart006 users now actor issue d).audit.filter
        (fun e => e.field = "priority")).length =
      if d.priority = none ∨ d.priority = some issue.priority then 0 else 1) ∧
    (((patchPart006 users now actor issue d).audit.filter
        (fun e => e.field = "type")).length =
      if d.type = none ∨ d.type = some issue.type then 0 else 1) ∧
    (((patchPart006 users now actor issue d).audit.filter
        (fun e => e.field = "assignedTo")).length =
      if d.assignedTo = none ∨ d.assignedTo = some issue.assignedTo
      then 0 else 1) ∧
    (((patchPart006 users now actor issue d).audit.filter
        (fun e => e.field = "tags")).length = 0) ∧
    (∀ e ∈ (patchPart006 users now actor issue d).audit,
      e.field = "status" → e.action = .STATUS_CHANGED) ∧
    (∀ e ∈ (patchPart006 users now actor issue d).audit,
      e.field = "priority" → e.action = .PRIORITY_CHANGED) ∧
    (∀ e ∈ (patchPart006 users now actor issue d).audit,
      e.field = "assignedTo" →
        (d.assignedTo = some none → e.action = .UNASSIGNED) ∧
        (∀ id, d.assignedTo = some (some id) → e.action = .ASSIGNED)) ∧
    (∀ e ∈ (patchPart006 users now actor issue d).audit,
      e.field = "title" ∨ e.field = "description" ∨ e.field = "type" →
        e.action = .UPDATED) := by
  cases hch : changesPart006 users issue d with
  | error err =>
    exfalso
    simp only [patchPart006, hch] at hok
    cases hok
  | ok cs =>
    have haudit : (patchPart006 users now actor issue d).audit = cs := by
      simp only [patchPart006, hch]
    unfold changesPart006 at hch
    cases hass : assignedToChangePart006 users issue d with
    | error err => rw [hass] at hch; cases hch
    | ok ca =>
      rw [hass] at hch
      obtain rfl := Except.ok.inj hch
      obtain ⟨ha1, ha2, ha3⟩ := assignedToChange_spec users issue d ca hass
      rw [haudit]
      refine ⟨?_, ?_, ?_, ?_, ?_, ?_, ?_, ?_, ?_, ?_, ?_⟩
      · simp only [List.filter_append, List.length_append]
        rw [titleChange_filter_title issue d htitle,
          descriptionChange_filter_other issue d "title" (by decide),
          statusChange_filter_other issue d "title" (by decide),
          priorityChange_filter_other issue d "title" (by decide),
          typeChange_filter_other issue d "title" (by decide),
          ha2 "title" (by decide)]
        simp
      · simp only [List.filter_append, List.length_append]
        rw [descriptionChange_filter_description issue d hdesc,
          titleChange_filter_other issue d "description" (by decide),
          statusChange_filter_other issue d "description" (by decide),
          priorityChange_filter_other issue d "description" (by decide),
          typeChange_filter_other issue d "description" (by decide),
          ha2 "description" (by decide)]
        simp
      · simp only [List.filter_append, List.length_append]
        rw [statusChange_filter_status issue d,
          titleChange_filter_other issue d "status" (by decide),
          descriptionChange_filter_other issue d "status" (by decide),
          priorityChange_filter_other issue d "status" (by decide),
          typeChange_filter_other issue d "status" (by decide),
          ha2 "status" (by decide)]
        simp
      · simp only [List.filter_append, List.length_append]
        rw [priorityChange_filter_priority issue d,
          titleChange_filter_other issue d "priority" (by decide),
          descriptionChange_filter_other issue d "priority" (by decide),
          statusChange_filter_other issue d "priority" (by decide),
          typeChange_filter_other issue d "priority" (by decide),
          ha2 "priority" (by decide)]
        simp
      · simp only [List.filter_append, List.length_append]
        rw [typeChange_filter_type issue d,
          titleChange_filter_other issue d "type" (by decide),
          descriptionChange_filter_other issue d "type" (by decide),
          statusChange_filter_other issue d "type" (by decide),
          priorityChange_filter_other issue d "type" (by decide),
          ha2 "type" (by decide)]
        simp
      · simp only [List.filter_append, List.length_append]
        rw [ha1,
          titleChange_filter_other issue d "assignedTo" (by decide),
          descriptionChange_filter_other issue d "assignedTo" (by decide),
          statusChange_filter_other issue d "assignedTo" (by decide),
          priorityChange_filter_other issue d "assignedTo" (by decide),
          typeChange_filter_other issue d "assignedTo" (by decide)]
        simp
      · simp only [List.filter_append, List.length_append]
        rw [titleChange_filter_other issue d "tags" (by decide),
          descriptionChange_filter_other issue d "tags" (by decide),
          statusChange_filter_other issue d "tags" (by decide),
          priorityChange_filter_other issue d "tags" (by decide),
          typeChange_filter_other issue d "tags" (by decide),
          ha2 "tags" (by decide)]
        simp
      · intro e he hf
        simp only [List.mem_append] at he
        rcases he with ((((h | h) | h) | h) | h) | h
        · have := (titleChange_mem issue d e h).1
          rw [hf] at this
          exact absurd this (by decide)
        · have := (descriptionChange_mem issue d e h).1
          rw [hf] at this
          exact absurd this (by decide)
        · exact (statusChange_mem issue d e h).2
        · have := (priorityChange_mem issue d e h).1
          rw [hf] at this
          exact absurd this (by decide)
        · have := (typeChange_mem issue d e h).1
          rw [hf] at this
          exact absurd this (by decide)
        · have := (ha3 e h).1
          rw [hf] at this
          exact absurd this (by decide)
      · intro e he hf
        simp only [List.mem_append] at he
        rcases he with ((((h | h) | h) | h) | h) | h
        · have := (titleChange_mem issue d e h).1
          rw [hf] at this
          exact absurd this (by decide)
        · have := (descriptionChange_mem issue d e h).1
          rw [hf] at this
          exact absurd this (by decide)
        · have := (statusChange_mem issue d e h).1
          rw [hf] at this
          exact absurd this (by decide)
        · exact (priorityChange_mem issue d e h).2
        · have := (typeChange_mem issue d e h).1
          rw [hf] at this
          exact absurd this (by decide)
        · have := (ha3 e h).1
          rw [hf] at this
          exact absurd this (by decide)
      · intro e he hf
        simp only [List.mem_append] at he
        rcases he with ((((h | h) | h) | h) | h) | h
        · have := (titleChange_mem issue d e h).1
          rw [hf] at this
          exact absurd this (by decide)
        · have := (descriptionChange_mem issue d e h).1
          rw [hf] at this
          exact absurd this (by decide)
        · have := (statusChange_mem issue d e h).1
          rw [hf] at this
          exact absurd this (by decide)
        · have := (priorityChange_mem issue d e h).1
          rw [hf] at this
          exact absurd this (by decide)
        · have := (typeChange_mem issue d e h).1
          rw [hf] at this
          exact absurd this (by decide)
        · exact (ha3 e h).2
      · intro e he hf
        simp only [List.mem_append] at he
        rcases he with ((((h | h) | h) | h) | h) | h
        · exact (titleChange_mem issue d e h).2
        · exact (descriptionChange_mem issue d e h).2
        · have h1 := (statusChange_mem issue d e h).1
          rcases hf with hf | hf | hf <;> rw [hf] at h1 <;>
            exact absurd h1 (by decide)
        · have h1 := (priorityChange_mem issue d e h).1
          rcases hf with hf | hf | hf <;> rw [hf] at h1 <;>
            exact absurd h1 (by decide)
        · exact (typeChange_mem issue d e h).2
        · have h1 := (ha3 e h).1
          rcases hf with hf | hf | hf <;> rw [hf] at h1 <;>
            exact absurd h1 (by decide)

/-- Counterexample to C8 as stated: the `route.ts` PATCH handler logs a
status change with the generic `UPDATED` action, not `STATUS_CHANGED`. -/
theorem status_change_logged_generic :
    (patchRoute [] 0 ⟨"m1", "m@b.com", Role.MANAGER⟩
        ⟨"Old title", "A description.", .OPEN, .LOW, .BUG, [], none, none, none⟩
        ⟨none, none, some .IN_PROGRESS, none, none, none, none⟩).audit =
      [⟨"status", some "OPEN", some "IN_PROGRESS", .UPDATED⟩] ∧
    AuditAction.UPDATED ≠ AuditAction.STATUS_CHANGED := by
  refine ⟨by decide, by decide⟩

/-- Witness for C8 (amended): a MANAGER changing status and priority gets
exactly one status entry, tagged `STATUS_CHANGED`. -/
theorem audit_action_specificity_witness :
    (((patchPart006 [] 0 ⟨"m1", "m@b.com", Role.MANAGER⟩
        ⟨"Old title", "A description.", .OPEN, .LOW, .BUG, [], none, none, none⟩
        ⟨none, none, some .IN_PROGRESS, some .HIGH, none, none, none⟩).audit.filter
        (fun e => e.field = "status")).length = 1) ∧
    (∀ e ∈ (patchPart006 [] 0 ⟨"m1", "m@b.com", Role.MANAGER⟩
        ⟨"Old title", "A description.", .OPEN, .LOW, .BUG, [], none, none, none⟩
        ⟨none, none, some .IN_PROGRESS, some .HIGH, none, none, none⟩).audit,
      e.field = "status" → e.action = .STATUS_CHANGED) :=
  have h := audit_action_specificity [] 0 ⟨"m1", "m@b.com", Role.MANAGER⟩
    ⟨"Old title", "A description.", .OPEN, .LOW, .BUG, [], none, none, none⟩
    ⟨none, none, some .IN_PROGRESS, some .HIGH, none, none, none⟩
    (by decide) (by decide) (by decide)
  ⟨h.2.2.1.trans (by decide), h.2.2.2.2.2.2.2.1⟩

end IssueDashboard
